import Mathlib

/-!
Verification of `task_dyva/visualization.py`: shallow embedding of the
RT-distribution formatter (`PlotRTs`), the bar-chart renderer (`BarPlot`)
and the 3D latent-trajectory plotter (`PlotModelLatents`), together with
theorems settling the frozen claims about the module.

Conventions of the embedding:
- pandas Series / numpy arrays of numbers become `List ℚ` (the figures in
  question are exact rationals, so ℚ is lossless for them);
- numpy's NaN (obtained from `np.mean` over an empty axis) is modelled by
  `Option ℚ` with `none` playing NaN;
- Python exceptions are modelled by the `PyError` type; functions that can
  raise return `Except PyError _`, and renderers whose partial drawing
  matters return the list of draw commands emitted before the first error
  together with `Option PyError`;
- error bars computed with a square root are recorded by their exact
  square (a rational), keeping every definition computable; theorems about
  the drawn value apply `Real.sqrt` to that square.
-/

namespace TaskDyva

/-- A row of the per-trial statistics table (`EbbFlowStats.df`).  Only the
fields read by `visualization.py` are represented: user and model reaction
times and the integer-coded condition flags. -/
structure Trial where
  urt_ms : ℚ
  mrt_ms : ℚ
  is_switch : ℕ
  is_congruent : ℕ
  task_cue : ℕ
  mv_dir : ℕ
  point_dir : ℕ
deriving DecidableEq, Repr

/-- Names of the integer-coded columns that `visualization.py` filters on. -/
inductive Field where
  | is_switch
  | is_congruent
  | task_cue
  | mv_dir
  | point_dir
deriving DecidableEq, Repr

/-- Value of an integer-coded column of a trial record. -/
def fieldVal : Field → Trial → ℕ
  | .is_switch, t => t.is_switch
  | .is_congruent, t => t.is_congruent
  | .task_cue, t => t.task_cue
  | .mv_dir, t => t.mv_dir
  | .point_dir, t => t.point_dir

/-- A trial record matches a filter dictionary when every listed
(field, value) pair matches exactly. -/
def matchesF (fs : List (Field × ℕ)) (t : Trial) : Bool :=
  fs.all (fun fv => fieldVal fv.1 t == fv.2)

/-- Modelled from the spec: `select(**filters)` of the external stats object
(`taskdataset.EbbFlowStats`, whose source is not part of this tree) returns
the trial indices whose record matches an exact-match filter dictionary. -/
def selectF (trials : List Trial) (fs : List (Field × ℕ)) : List ℕ :=
  (List.range trials.length).filter (fun i =>
    match trials.get? i with
    | some t => matchesF fs t
    | none => false)

/-- The statistics object as seen by `PlotRTs`: the per-trial table. -/
structure Stats where
  df : List Trial
deriving DecidableEq, Repr

/-- Column extraction at a list of (in-range) trial indices:
`self.df['urt_ms'][inds]` and friends. -/
def colInds (col : Trial → ℚ) (s : Stats) (inds : List ℕ) : List ℚ :=
  inds.map (fun i => ((s.df.get? i).map col).getD 0)

/-- One row of the long-form plotting table built by
`PlotRTs._format_as_df`. -/
structure RTRow where
  rts : ℚ
  model_or_user : String
  trial_type : String
deriving DecidableEq, Repr

/-- The label columns of the long-form table: for each (rts, mu, ttype)
triple of the zipped inputs, `len(rts)` copies of the label are appended
to the corresponding column (the `for ... in zip(...)` loop of
`_format_as_df`). -/
def labelArrays : List (List ℚ) → List String → List String →
    List String × List String
  | d :: ds, m :: ms, t :: ts =>
    let rest := labelArrays ds ms ts
    (List.replicate d.length m ++ rest.1, List.replicate d.length t ++ rest.2)
  | _, _, _ => ([], [])

/-- `PlotRTs._format_as_df`: concatenate the RT series, build the two label
columns, and assemble the rows positionally (the pandas DataFrame built
from one Series and two equal-length lists pairs entries positionally). -/
def format_as_df (plot_dists : List (List ℚ)) (model_or_user : List String)
    (trial_types : List String) : List RTRow :=
  let all_rts := plot_dists.flatten
  let arrays := labelArrays plot_dists model_or_user trial_types
  (all_rts.zip (arrays.1.zip arrays.2)).map
    (fun p => ⟨p.1, p.2.1, p.2.2⟩)

/-- `PlotRTs._format_all`. -/
def format_all (s : Stats) : List RTRow :=
  format_as_df [s.df.map (·.urt_ms), s.df.map (·.mrt_ms)]
    ["user", "model"] ["N/A", "N/A"]

/-- `PlotRTs._format_by_switch`. -/
def format_by_switch (s : Stats) : List RTRow :=
  let stay_inds := selectF s.df [(.is_switch, 0)]
  let switch_inds := selectF s.df [(.is_switch, 1)]
  let u_stay_rts := colInds (·.urt_ms) s stay_inds
  let m_stay_rts := colInds (·.mrt_ms) s stay_inds
  let u_switch_rts := colInds (·.urt_ms) s switch_inds
  let m_switch_rts := colInds (·.mrt_ms) s switch_inds
  format_as_df [u_stay_rts, u_switch_rts, m_stay_rts, m_switch_rts]
    ["user", "user", "model", "model"] ["Stay", "Switch", "Stay", "Switch"]

/-- `PlotRTs._format_by_congruency`. -/
def format_by_congruency (s : Stats) : List RTRow :=
  let con_inds := selectF s.df [(.is_congruent, 1)]
  let incon_inds := selectF s.df [(.is_congruent, 0)]
  let u_con_rts := colInds (·.urt_ms) s con_inds
  let m_con_rts := colInds (·.mrt_ms) s con_inds
  let u_incon_rts := colInds (·.urt_ms) s incon_inds
  let m_incon_rts := colInds (·.mrt_ms) s incon_inds
  format_as_df [u_con_rts, u_incon_rts, m_con_rts, m_incon_rts]
    ["user", "user", "model", "model"]
    ["Congruent", "Incongruent", "Congruent", "Incongruent"]

/-- Python-level failures observable from this module. -/
inductive PyError where
  | unboundLocal (name : String)
  | indexError
  | keyError (name : String)
  | assertionError (msg : String)
  | valueError (msg : String)
deriving DecidableEq, Repr

/-- An error that was raised explicitly by the module with a message, as
opposed to an interpreter fault (unbound local, bad index, missing key). -/
def PyError.isDescriptiveRaise : PyError → Bool
  | .assertionError _ => true
  | .valueError _ => true
  | _ => false

/-- `PlotRTs.plot_rt_dists`: the data handed to the violin plot.  For a mode
outside the three handled ones, `plot_df` is never assigned and the
`sns.violinplot(..., data=plot_df, ...)` call raises `UnboundLocalError`. -/
def plot_rt_dists (s : Stats) (plot_type : String) :
    Except PyError (List RTRow) :=
  if plot_type = "all" then .ok (format_all s)
  else if plot_type = "switch" then .ok (format_by_switch s)
  else if plot_type = "congruency" then .ok (format_by_congruency s)
  else .error (.unboundLocal "plot_df")

/-! ## BarPlot -/

/-- `np.mean` of a nonempty rational list; on the empty list the quotient
degenerates to `0` (the callers below never hit that case on the inputs
the claims are about). -/
def npMeanQ (d : List ℚ) : ℚ := d.sum / (d.length : ℚ)

/-- `np.var` with the default `ddof=0`: population variance. -/
def npVarQ (d : List ℚ) : ℚ :=
  ((d.map (fun v => (v - npMeanQ d) ^ 2)).sum) / (d.length : ℚ)

/-- Sample variance (`ddof=1`), the square of what `pandas` `.std()` and
`.sem()` are built from. -/
def sampleVar (d : List ℚ) : ℚ :=
  ((d.map (fun v => (v - npMeanQ d) ^ 2)).sum) / ((d.length : ℚ) - 1)

/-- The f-string rendering of the assertion message guarding both bar
renderers (`BarPlot.supported_error = {'sem', 'sd'}`). -/
def supportedMsg : String :=
  "error_type must be one of the following: \x7b'sem', 'sd'\x7d"

/-- One bar drawn by `BarPlot.plot_bar`: position, height (the column
mean), the square of the error-bar half-length (`np.std(d)/np.sqrt(len(d))`
squared, i.e. population variance over n, kept squared to stay rational),
the bar width and the index into the sequential palette. -/
structure Bar where
  x : ℕ
  height : ℚ
  err2 : ℚ
  width : ℚ
  colorIdx : ℕ
deriving DecidableEq, Repr

/-- Column lookup for the keys of `plot_bar`; a missing key is a pandas
`KeyError`. -/
def lookupCols (df : List (String × List ℚ)) :
    List String → Except PyError (List (List ℚ))
  | [] => .ok []
  | k :: ks =>
    match df.lookup k with
    | some c => (lookupCols df ks).map (fun r => c :: r)
    | none => .error (.keyError k)

/-- `BarPlot.plot_bar`: assert the dispersion token, then draw one bar per
key at positions 0,1,2,... with height `np.mean` and error bar
`np.std/sqrt(n)` (recorded squared).  Note the source computes
`np.std(d)/np.sqrt(len(d))` unconditionally, regardless of whether
`error_type` is `'sem'` or `'sd'`.  The trailing `_adjust_bar` call only
restyles the axis and emits no data, so it is not modelled. -/
def plot_bar (df : List (String × List ℚ)) (keys : List String)
    (error_type : String) (kw_width : Option ℚ) :
    Except PyError (List Bar) :=
  if error_type = "sem" ∨ error_type = "sd" then
    let width := kw_width.getD (3 / 4)
    match lookupCols df keys with
    | .ok plot_data =>
      .ok (((List.range plot_data.length).zip plot_data).map
        (fun p => ⟨p.1, npMeanQ p.2, npVarQ p.2 / (p.2.length : ℚ),
                   width, p.1⟩))
    | .error e => .error e
  else .error (.assertionError supportedMsg)

/-- One row of `BarPlot.df` projected onto the three columns that
`plot_grouped_bar(x, y, hue, ...)` reads. -/
structure GRow where
  x : String
  y : ℚ
  hue : String
deriving DecidableEq, Repr

/-- `pandas` `Series.unique`: distinct values in order of first
appearance. -/
def uniqueFirst (l : List String) : List String :=
  l.foldl (fun acc v => if v ∈ acc then acc else acc ++ [v]) []

/-- Insertion of a string into a sorted list (used to model the sorted
group order of `pandas` `groupby`). -/
def insertSorted (v : String) : List String → List String
  | [] => [v]
  | w :: ws => if v < w then v :: w :: ws else w :: insertSorted v ws

/-- Sorted distinct group keys: `pandas` `groupby` iterates groups in
sorted key order. -/
def group_keys (g : List GRow) : List String :=
  (uniqueFirst (g.map (·.x))).foldr insertSorted []

/-- `BarPlot._get_group_data`: per-group means and the squares of the
chosen dispersion (`.sem()` is sample-std over sqrt n, `.std()` is sample
std; both `ddof=1`).  Only `'sem'` and `'sd'` reach this helper: both
callers assert the token first. -/
def get_group_data (g : List GRow) (error_type : String) :
    List ℚ × List ℚ :=
  let ks := group_keys g
  let means := ks.map (fun k => npMeanQ ((g.filter (·.x = k)).map (·.y)))
  let err2s := ks.map (fun k =>
    let ys := (g.filter (·.x = k)).map (·.y)
    if error_type = "sem" then sampleVar ys / (ys.length : ℚ)
    else sampleVar ys)
  (means, err2s)

/-- The two hard-coded colors of `plot_grouped_bar`; indexing past them is
the `IndexError` that a third hue value runs into. -/
def grouped_colors : List (ℚ × ℚ × ℚ × ℚ) :=
  [(2363 / 10000, 3986 / 10000, 5104 / 10000, 1),
   (2719 / 10000, 6549 / 10000, 4705 / 10000, 1)]

/-- One bar series drawn by `plot_grouped_bar` for one hue value: the hue
label, the x offset of the series, per-group means, squares of the
per-group error bars, the bar width and the face color. -/
structure BarSeries where
  label : String
  x_offset : ℚ
  means : List ℚ
  err2s : List ℚ
  width : ℚ
  color : ℚ × ℚ × ℚ × ℚ
deriving DecidableEq, Repr

/-- The `for i, h in enumerate(hue_types)` loop of `plot_grouped_bar`: draw
one series per hue value; `colors[i]` raises `IndexError` as soon as `i`
runs past the two available colors, keeping the series already drawn. -/
def groupedLoop (rows : List GRow) (error_type : String) (width : ℚ) :
    List String → ℕ → ℚ → List BarSeries × Option PyError
  | [], _, _ => ([], none)
  | h :: hs, i, x_off =>
    match grouped_colors.get? i with
    | none => ([], some .indexError)
    | some col =>
      let gd := get_group_data (rows.filter (·.hue = h)) error_type
      let rest := groupedLoop rows error_type width hs (i + 1) (x_off + width)
      (⟨h, x_off, gd.1, gd.2, width, col⟩ :: rest.1, rest.2)

/-- `BarPlot.plot_grouped_bar`: assert the dispersion token, then loop over
the distinct hue values.  If the loop body never ran (no rows at all), the
trailing `self._adjust_bar(plot_x, ...)` call raises `UnboundLocalError`
on `plot_x`; otherwise `_adjust_bar` only restyles the axis and emits no
data, so it is not modelled further. -/
def plot_grouped_bar (rows : List GRow) (error_type : String)
    (kw_width : Option ℚ) : List BarSeries × Option PyError :=
  if error_type = "sem" ∨ error_type = "sd" then
    let width := kw_width.getD (7 / 20)
    let hue_types := uniqueFirst (rows.map (·.hue))
    let res := groupedLoop rows error_type width hue_types 0 (-(width / 2))
    match res.2 with
    | some _ => res
    | none =>
      if hue_types.isEmpty then ([], some (.unboundLocal "plot_x")) else res
  else ([], some (.assertionError supportedMsg))

/-! ## PlotModelLatents -/

/-- `np.mean` over a possibly empty list, with `none` playing numpy's NaN
(the value `np.mean` produces, with a warning, on an empty axis). -/
def meanOpt (l : List ℚ) : Option ℚ :=
  if l.isEmpty then none else some (l.sum / (l.length : ℚ))

/-- A row of the optional fixed-points table: the cue condition and the
stored 3-vector in PCA space. -/
structure FixedPoint where
  cue : ℕ
  zloc : ℚ × ℚ × ℚ
deriving DecidableEq, Repr

/-- The state of a `PlotModelLatents` instance after `__init__`:
`latent t i c` is the windowed PCA latent at time-sample `t`, trial `i`,
already projected onto the chosen component subset (component `c` of the
projection); `n_times` is the length of the time axis; `m_rt` is
`data.df['mrt_ms']` as a positional array. -/
structure PML where
  trials : List Trial
  latent : ℕ → ℕ → ℕ → ℚ
  n_times : ℕ
  m_rt : ℕ → ℚ
  step : ℚ
  n_pre : ℕ
  t_off_ind : ℕ
  fixed_points : Option (List FixedPoint)

/-- The stats object as consumed by `PlotModelLatents.__init__`: the trial
table, the full windowed latents array and the sampling parameters. -/
structure Stats3D where
  trials : List Trial
  pca_latents : ℕ → ℕ → ℕ → ℚ
  n_times : ℕ
  step : ℚ
  n_pre : ℕ

/-- `PlotModelLatents.__init__`: project the latents onto `pcs_to_plot`,
extract the model RTs, and fix the window cutoff
`t_off_ind = n_pre + round(post_on_dur / step)` (numpy rounds half to
even; the rounding mode is irrelevant to every claim below, none of which
evaluates at a half-integer). -/
def PML.init (data : Stats3D) (post_on_dur : ℚ) (pcs_to_plot : List ℕ)
    (fixed_points : Option (List FixedPoint)) : PML :=
  { trials := data.trials
    latent := fun t i c => data.pca_latents t i (pcs_to_plot.getD c 0)
    n_times := data.n_times
    m_rt := fun i => ((data.trials.get? i).map (·.mrt_ms)).getD 0
    step := data.step
    n_pre := data.n_pre
    t_off_ind := data.n_pre + (round (post_on_dur / data.step) : ℤ).toNat
    fixed_points := fixed_points }

/-- One coordinate of the averaged trajectory:
`np.mean(self.latents[:self.t_off_ind, series_inds, c], 1)`, i.e. for each
time sample of the window the mean over the selected trials (NaN, i.e.
`none`, when the selection is empty). -/
def trajComp (P : PML) (inds : List ℕ) (c : ℕ) : List (Option ℚ) :=
  (List.range (min P.t_off_ind P.n_times)).map
    (fun t => meanOpt (inds.map (fun i => P.latent t i c)))

/-- Draw commands that `plot_3d` and its helpers emit on the 3D axis. -/
inductive Draw3D where
  | line3d (xs ys zs : List (Option ℚ)) (color : String) (style : String)
      (label : String) (width : ℚ)
  | mark3d (x y z : Option ℚ) (color : String) (size : ℚ) (marker : String)
  | fp3d (x y z : ℚ) (color : String) (marker : String)
deriving DecidableEq, Repr

/-- The line style of a line draw command, if the command is a line. -/
def Draw3D.lineStyle : Draw3D → Option String
  | .line3d _ _ _ _ style _ _ => some style
  | _ => none

/-- `PlotModelLatents._plot_3d_line`: plot the trial-averaged trajectory of
a trial-index group as one 3D curve. -/
def plot_3d_line (P : PML) (series_inds : List ℕ)
    (color style label : String) (width : ℚ) : Draw3D :=
  .line3d (trajComp P series_inds 0) (trajComp P series_inds 1)
    (trajComp P series_inds 2) color style label width

/-- `PlotModelLatents._get_series_rt_samples`:
`round(mean(m_rts[series]) / step)`; `none` models the NaN produced when
the series is empty (whose later `astype('int')` is an invalid index). -/
def get_series_rt_samples (P : PML) (series : List ℕ) : Option ℤ :=
  (meanOpt (series.map P.m_rt)).map (fun m => round (m / P.step))

/-- Python/numpy indexing of the coordinate list of a trajectory: negative
indices wrap once from the end, anything else out of range is an
`IndexError`; a NaN index (from an empty RT selection) is likewise an
invalid index. -/
def pyGet (l : List (Option ℚ)) (t : ℤ) : Option (Option ℚ) :=
  if 0 ≤ t then l.get? t.toNat
  else if (-t).toNat ≤ l.length then l.get? (l.length - (-t).toNat)
  else none

/-- `PlotModelLatents._mark_3d_plot`: recompute the averaged trajectory of
the index group and scatter one marker at time sample `t_ind`.  A NaN
`t_ind` or an out-of-range sample is an `IndexError`; NaN coordinates at a
valid sample are drawn (matplotlib silently skips NaN points). -/
def mark_3d_plot (P : PML) (series_inds : List ℕ) (t_ind : Option ℤ)
    (color : String) (size : ℚ) (marker : String) : Except PyError Draw3D :=
  let xs := trajComp P series_inds 0
  let ys := trajComp P series_inds 1
  let zs := trajComp P series_inds 2
  match t_ind with
  | none => .error .indexError
  | some t =>
    match pyGet xs t, pyGet ys t, pyGet zs t with
    | some x, some y, some z => .ok (.mark3d x y z color size marker)
    | _, _, _ => .error .indexError

/-- The kwargs read by `plot_3d` and its helpers, with `none` standing for
an absent key and the `kwargs.get(..., False)` flags as plain booleans. -/
structure KW3D where
  colors : Option (List String)
  line_styles : Option (List String)
  line_width : Option ℚ
  rt_marker : Option String
  plot_task_onset : Bool
  plot_task_rt_centroid : Bool
  plot_series_onset : Bool
  plot_series_rt : Bool
  mv_series_inds : Option (List ℕ)
  pt_series_inds : Option (List ℕ)
deriving DecidableEq, Repr

/-- The kwargs of a bare `plot_3d` call: every key absent, every flag at
its `False` default. -/
def kwNone : KW3D := ⟨none, none, none, none, false, false, false, false,
  none, none⟩

/-- `PlotModelLatents.default_colors`. -/
def default_colors : List String :=
  ["royalblue", "forestgreen", "crimson", "orange",
   "royalblue", "forestgreen", "crimson", "orange"]

/-- Draw-command accumulation: keep the commands of `a`; if `a` did not
fail, append those of `b` and take its error state. -/
def andThen (a b : List Draw3D × Option PyError) :
    List Draw3D × Option PyError :=
  match a.2 with
  | none => (a.1 ++ b.1, b.2)
  | some e => (a.1, some e)

/-- Lift a single fallible draw command into the accumulating pair. -/
def draws1 (r : Except PyError Draw3D) : List Draw3D × Option PyError :=
  match r with
  | .ok d => ([d], none)
  | .error e => ([], some e)

/-- Lift a fallible list of draw commands into the accumulating pair. -/
def drawsE (r : Except PyError (List Draw3D)) :
    List Draw3D × Option PyError :=
  match r with
  | .ok ds => (ds, none)
  | .error e => ([], some e)

/-- `np.concatenate([series[i] for i in sel])`: gather and concatenate the
index groups at positions `sel`, an `IndexError` if a position is out of
range. -/
def gatherSeries (series : List (List ℕ)) :
    List ℕ → Except PyError (List ℕ)
  | [] => .ok []
  | i :: rest =>
    match series.get? i with
    | some s => (gatherSeries series rest).map (fun r => s ++ r)
    | none => .error .indexError

/-- `PlotModelLatents._plot_task_centroid`: concatenate the moving-task and
pointing-task groups (positions taken from the mandatory
`kwargs['mv_series_inds']` / `kwargs['pt_series_inds']`, a `KeyError` when
missing) and mark each concatenated group at the onset sample or its mean
RT sample. -/
def plot_task_centroid (P : PML) (series : List (List ℕ))
    (centroid_type : String) (kw : KW3D) : Except PyError (List Draw3D) :=
  match kw.mv_series_inds, kw.pt_series_inds with
  | some mvSel, some ptSel =>
    match gatherSeries series mvSel, gatherSeries series ptSel with
    | .ok mv_inds, .ok pt_inds =>
      let markOne := fun (inds : List ℕ) =>
        if centroid_type = "onset" then
          mark_3d_plot P inds (some (P.n_pre : ℤ)) "k" 10 "."
        else
          mark_3d_plot P inds (get_series_rt_samples P inds) "k" 10 "d"
      match markOne mv_inds with
      | .ok d1 =>
        match markOne pt_inds with
        | .ok d2 => .ok [d1, d2]
        | .error e => .error e
      | .error e => .error e
    | .error e, _ => .error e
    | _, .error e => .error e
  | none, _ => .error (.keyError "mv_series_inds")
  | _, none => .error (.keyError "pt_series_inds")

/-- The `for i, s in enumerate(series)` loop of `plot_3d`: for each index
group draw its averaged curve (label, color and style looked up at
position `i`, an `IndexError` past the end of any of the three lists),
then optionally its onset marker and its mean-RT marker. -/
def series3dLoop (P : PML) (labels colors styles : List String) (width : ℚ)
    (pso psr : Bool) : List (List ℕ) → ℕ → List Draw3D × Option PyError
  | [], _ => ([], none)
  | s :: rest, i =>
    match labels.get? i, colors.get? i, styles.get? i with
    | some label, some color, some style =>
      let this :=
        andThen ([plot_3d_line P s color style label width], none)
          (andThen
            (if pso then
              draws1 (mark_3d_plot P s (some (P.n_pre : ℤ)) "k" 10 ".")
            else ([], none))
            (if psr then
              draws1 (mark_3d_plot P s (get_series_rt_samples P s) color 6 "o")
            else ([], none)))
      andThen this (series3dLoop P labels colors styles width pso psr rest (i + 1))
    | _, _, _ => ([], some .indexError)

/-- `PlotModelLatents._plot_fixed_points`: scatter the stored 3-vectors,
cue-0 rows in crimson and cue-1 rows in royalblue, all with marker `x`. -/
def plot_fixed_points (fps : List FixedPoint) : List Draw3D :=
  ((fps.filter (fun f => f.cue = 0)).map
    (fun f => .fp3d f.zloc.1 f.zloc.2.1 f.zloc.2.2 "crimson" "x")) ++
  ((fps.filter (fun f => f.cue = 1)).map
    (fun f => .fp3d f.zloc.1 f.zloc.2.1 f.zloc.2.2 "royalblue" "x"))

/-- `PlotModelLatents.plot_3d`: resolve the style kwargs (note the default
line style list is all-solid), draw the optional task centroids, then the
per-series curves and markers, then the optional fixed points.  The
trailing `_adjust_plot` call only configures the view (angles, limits,
tick labels, legend) and emits no data, so it is not modelled. -/
def plot_3d (P : PML) (series : List (List ℕ)) (labels : List String)
    (kw : KW3D) : List Draw3D × Option PyError :=
  let colors := kw.colors.getD default_colors
  let line_styles := kw.line_styles.getD (List.replicate series.length "-")
  let width := kw.line_width.getD (1 / 2)
  andThen
    (if kw.plot_task_onset then
      drawsE (plot_task_centroid P series "onset" kw)
    else ([], none))
    (andThen
      (if kw.plot_task_rt_centroid then
        drawsE (plot_task_centroid P series "rt" kw)
      else ([], none))
      (andThen
        (series3dLoop P labels colors line_styles width
          kw.plot_series_onset kw.plot_series_rt series 0)
        (match P.fixed_points with
         | some fps => (plot_fixed_points fps, none)
         | none => ([], none))))

/-- The 8 (task-cue, stimulus-direction) pairs of
`plot_main_conditions`. -/
def stim_cue_vals : List (ℕ × ℕ) :=
  [(0, 0), (0, 1), (0, 2), (0, 3), (1, 0), (1, 1), (1, 2), (1, 3)]

/-- The 8 series labels of `plot_main_conditions`. -/
def mainLabels : List String :=
  ["Moving L", "Moving R", "Moving U", "Moving D",
   "Pointing L", "Pointing R", "Pointing U", "Pointing D"]

/-- The local `styles` list of `plot_main_conditions` — built by the source
(solid for the moving task, dashed for the pointing task) but never passed
on to `plot_3d`. -/
def mainStyles : List String :=
  ["-", "-", "-", "-", "--", "--", "--", "--"]

/-- `PlotModelLatents._get_main_series`: one trial-index selection per
(cue, direction) pair, filtering on `mv_dir` for the moving task and
`point_dir` for the pointing task. -/
def get_main_series (trials : List Trial) : List (List ℕ) :=
  stim_cue_vals.map (fun cv =>
    if cv.1 = 0 then selectF trials [(.mv_dir, cv.2), (.task_cue, cv.1)]
    else selectF trials [(.point_dir, cv.2), (.task_cue, cv.1)])

/-- The preset kwargs `plot_main_conditions` hands to `plot_3d`: the
series/task marker flags, the index split of the two tasks and the line
width — and no `line_styles` entry. -/
def mainPlotKW : KW3D :=
  ⟨none, none, some (1 / 2), none, true, false, false, true,
   some [0, 1, 2, 3], some [4, 5, 6, 7]⟩

/-- `PlotModelLatents.plot_main_conditions`: build the 8 condition series
and delegate to `plot_3d` with the preset kwargs updated by the caller's
overrides (`update = id` is the default call with no caller kwargs). -/
def plot_main_conditions (P : PML) (update : KW3D → KW3D) :
    List Draw3D × Option PyError :=
  plot_3d P (get_main_series P.trials) mainLabels (update mainPlotKW)

/-! ## Object heap for the `PlotRTs.__init__` aliasing behaviour -/

/-- A Python attribute value, as far as this module stores them. -/
inductive PyVal where
  | str (s : String)
  | num (q : ℚ)
deriving DecidableEq, Repr

/-- A tiny heap of Python objects: each object id maps to the id of its
attribute dictionary (`__dict__`), and each dictionary id to an
association list of attributes (most recent write first). -/
structure Heap where
  objDict : ℕ → ℕ
  dicts : ℕ → List (String × PyVal)
  nextObj : ℕ
  nextDict : ℕ

/-- Attribute read through an object's `__dict__`. -/
def Heap.getattr (h : Heap) (o : ℕ) (k : String) : Option PyVal :=
  (h.dicts (h.objDict o)).lookup k

/-- Attribute write through an object's `__dict__`. -/
def Heap.setattr (h : Heap) (o : ℕ) (k : String) (v : PyVal) : Heap :=
  ⟨h.objDict,
   fun d => if d = h.objDict o then (k, v) :: h.dicts d else h.dicts d,
   h.nextObj, h.nextDict⟩

/-- `PlotRTs.__init__(stats_obj, palette)`: allocate the new instance with
a fresh empty `__dict__`, replace that dictionary by the very dictionary
object of `stats_obj` (`self.__dict__ = stats_obj.__dict__`, an aliasing
assignment, not a copy), then write `self.palette = palette` through the
now-shared dictionary.  Returns the updated heap and the new object id. -/
def PlotRTs_init (h : Heap) (stats_obj : ℕ) (palette : PyVal) :
    Heap × ℕ :=
  let self := h.nextObj
  let h1 : Heap :=
    ⟨fun o => if o = self then h.nextDict else h.objDict o,
     fun d => if d = h.nextDict then [] else h.dicts d,
     h.nextObj + 1, h.nextDict + 1⟩
  let h2 : Heap :=
    ⟨fun o => if o = self then h1.objDict stats_obj else h1.objDict o,
     h1.dicts, h1.nextObj, h1.nextDict⟩
  (h2.setattr self "palette" palette, self)

/-! ## Concrete instances used by the witnesses and counterexamples -/

/-- The two-column table of the spec's bar-renderer example:
`A = [1, 2, 3]`, `B = [4, 4, 4]`. -/
def dfAB : List (String × List ℚ) := [("A", [1, 2, 3]), ("B", [4, 4, 4])]

/-- Rows whose hue column takes three distinct values. -/
def rows3hue : List GRow :=
  [⟨"g1", 1, "h1"⟩, ⟨"g1", 2, "h2"⟩, ⟨"g1", 3, "h3"⟩]

/-- A two-trial stats table with one stay/congruent and one
switch/incongruent trial. -/
def statsTwo : Stats :=
  ⟨[⟨100, 110, 0, 1, 0, 0, 0⟩, ⟨200, 220, 1, 0, 1, 0, 0⟩]⟩

/-- A tiny trajectory-plotter state: two time samples, constant-zero
latents, no trials needed, unit step. -/
def pmlEmpty : PML :=
  ⟨[], fun _ _ _ => 0, 2, fun _ => 0, 1, 0, 2, none⟩

/-- Eight trials covering each (task-cue, direction) condition exactly
once: trials 0–3 are moving trials with directions 0–3, trials 4–7 are
pointing trials with directions 0–3. -/
def trialsMain : List Trial :=
  [⟨0, 0, 0, 0, 0, 0, 0⟩, ⟨0, 0, 0, 0, 0, 1, 0⟩,
   ⟨0, 0, 0, 0, 0, 2, 0⟩, ⟨0, 0, 0, 0, 0, 3, 0⟩,
   ⟨0, 0, 0, 0, 1, 0, 0⟩, ⟨0, 0, 0, 0, 1, 0, 1⟩,
   ⟨0, 0, 0, 0, 1, 0, 2⟩, ⟨0, 0, 0, 0, 1, 0, 3⟩]

/-- A concrete `PlotModelLatents` instance over the eight-trial dataset,
built by `__init__` with a 2 ms window, unit step and no pre-stimulus
samples. -/
def pmlMain : PML :=
  PML.init ⟨trialsMain, fun _ _ _ => 0, 2, 1, 0⟩ 2 [0, 1, 2] none

/-! ## Spec-side views used to compare the formatter output against -/

/-- The stay-trial index selection of `_format_by_switch`. -/
def stayInds (s : Stats) : List ℕ := selectF s.df [(.is_switch, 0)]

/-- The switch-trial index selection of `_format_by_switch`. -/
def switchInds (s : Stats) : List ℕ := selectF s.df [(.is_switch, 1)]

/-- The congruent-trial index selection of `_format_by_congruency`. -/
def conInds (s : Stats) : List ℕ := selectF s.df [(.is_congruent, 1)]

/-- The incongruent-trial index selection of `_format_by_congruency`. -/
def inconInds (s : Stats) : List ℕ := selectF s.df [(.is_congruent, 0)]

/-- The input series of the "all" mode, each with its
(model-or-user, category) label pair. -/
def rtSeries_all (s : Stats) : List (List ℚ × String × String) :=
  [(s.df.map (·.urt_ms), ("user", "N/A")),
   (s.df.map (·.mrt_ms), ("model", "N/A"))]

/-- The input series of the "switch" mode with their label pairs, in the
order the source lists them. -/
def rtSeries_switch (s : Stats) : List (List ℚ × String × String) :=
  [(colInds (·.urt_ms) s (stayInds s), ("user", "Stay")),
   (colInds (·.urt_ms) s (switchInds s), ("user", "Switch")),
   (colInds (·.mrt_ms) s (stayInds s), ("model", "Stay")),
   (colInds (·.mrt_ms) s (switchInds s), ("model", "Switch"))]

/-- The input series of the "congruency" mode with their label pairs, in
the order the source lists them. -/
def rtSeries_congruency (s : Stats) : List (List ℚ × String × String) :=
  [(colInds (·.urt_ms) s (conInds s), ("user", "Congruent")),
   (colInds (·.urt_ms) s (inconInds s), ("user", "Incongruent")),
   (colInds (·.mrt_ms) s (conInds s), ("model", "Congruent")),
   (colInds (·.mrt_ms) s (inconInds s), ("model", "Incongruent"))]

/-- The table a list of labelled series should expand to when every series
keeps its values in order, each paired with its own labels: the series
concatenated, one row per value. -/
def expandSeries : List (List ℚ × String × String) → List RTRow
  | [] => []
  | p :: rest => p.1.map (fun r => ⟨r, p.2.1, p.2.2⟩) ++ expandSeries rest

/-- Sum of the lengths of the input series. -/
def seriesLenSum (l : List (List ℚ × String × String)) : ℕ :=
  (l.map (fun p => p.1.length)).sum

/-- The spec's "that single trial's own trajectory": component `c` of trial
`i`'s latent trajectory, restricted to the selected components and the
time window, with no averaging. -/
def trialTraj (P : PML) (i c : ℕ) : List ℚ :=
  (List.range (min P.t_off_ind P.n_times)).map (fun t => P.latent t i c)

/-- True when every line draw command in the list uses the solid style. -/
def allSolid (l : List Draw3D) : Bool :=
  (l.filterMap Draw3D.lineStyle).all (fun st => st == "-")

/-- Decidable equality of `Except` results, so concrete runs of the
embedded functions can be checked by `decide`. -/
instance {ε α : Type} [DecidableEq ε] [DecidableEq α] :
    DecidableEq (Except ε α)
  | .ok a, .ok b =>
    if h : a = b then .isTrue (by rw [h]) else .isFalse (by simp [h])
  | .ok _, .error _ => .isFalse (by simp)
  | .error _, .ok _ => .isFalse (by simp)
  | .error e, .error f =>
    if h : e = f then .isTrue (by rw [h]) else .isFalse (by simp [h])

/-! ## Theorems: the RT long-form table -/

/-- Zipping a concatenated value column against label columns whose first
blocks are constant replicas of the first series' labels splits the table
at the block boundary. -/
theorem zip_label_split (d R : List ℚ) (m t : String) (M T : List String) :
    ((d ++ R).zip ((List.replicate d.length m ++ M).zip
        (List.replicate d.length t ++ T))).map
      (fun p => (⟨p.1, p.2.1, p.2.2⟩ : RTRow))
    = d.map (fun r => (⟨r, m, t⟩ : RTRow)) ++
      (R.zip (M.zip T)).map (fun p => (⟨p.1, p.2.1, p.2.2⟩ : RTRow)) := by
  induction d with
  | nil => simp
  | cons r d ih => simp [List.replicate_succ, ih]

/-- Peeling one series off `_format_as_df`: the head series contributes
its values in order, each tagged with the head labels. -/
theorem format_as_df_cons (d : List ℚ) (ds : List (List ℚ)) (m t : String)
    (ms ts : List String) :
    format_as_df (d :: ds) (m :: ms) (t :: ts)
    = d.map (fun r => (⟨r, m, t⟩ : RTRow)) ++ format_as_df ds ms ts := by
  simp only [format_as_df, labelArrays, List.flatten_cons]
  exact zip_label_split d ds.flatten m t (labelArrays ds ms ts).1
    (labelArrays ds ms ts).2

/-- The expansion of a labelled series list has one row per input value. -/
theorem expandSeries_length (l : List (List ℚ × String × String)) :
    (expandSeries l).length = seriesLenSum l := by
  induction l with
  | nil => rfl
  | cons p rest ih => simp [expandSeries, seriesLenSum, ih, List.map_cons]

/-- The "all" mode table is the expansion of its two series. -/
theorem format_all_expand (s : Stats) :
    format_all s = expandSeries (rtSeries_all s) := by
  simp only [format_all, rtSeries_all]
  rw [format_as_df_cons, format_as_df_cons]
  rfl

/-- The "switch" mode table is the expansion of its four series. -/
theorem format_by_switch_expand (s : Stats) :
    format_by_switch s = expandSeries (rtSeries_switch s) := by
  simp only [format_by_switch, rtSeries_switch, stayInds, switchInds]
  rw [format_as_df_cons, format_as_df_cons, format_as_df_cons,
    format_as_df_cons]
  rfl

/-- The "congruency" mode table is the expansion of its four series. -/
theorem format_by_congruency_expand (s : Stats) :
    format_by_congruency s = expandSeries (rtSeries_congruency s) := by
  simp only [format_by_congruency, rtSeries_congruency, conInds, inconInds]
  rw [format_as_df_cons, format_as_df_cons, format_as_df_cons,
    format_as_df_cons]
  rfl

/-- Claim C6: for all three RT-grouping modes the long-form table has one
row per input RT value (row count = sum of the series lengths), and each
series' values appear in it in their original order, unmodified, each
paired with its own (model/user, category) labels. -/
theorem rt_table_row_count_and_preservation (s : Stats) :
    (format_all s = expandSeries (rtSeries_all s) ∧
      (format_all s).length = seriesLenSum (rtSeries_all s)) ∧
    (format_by_switch s = expandSeries (rtSeries_switch s) ∧
      (format_by_switch s).length = seriesLenSum (rtSeries_switch s)) ∧
    (format_by_congruency s = expandSeries (rtSeries_congruency s) ∧
      (format_by_congruency s).length = seriesLenSum (rtSeries_congruency s)) := by
  refine ⟨⟨format_all_expand s, ?_⟩, ⟨format_by_switch_expand s, ?_⟩,
    ⟨format_by_congruency_expand s, ?_⟩⟩
  · rw [format_all_expand s, expandSeries_length]
  · rw [format_by_switch_expand s, expandSeries_length]
  · rw [format_by_congruency_expand s, expandSeries_length]

/-! ## Theorems: series counts, labels, and the stay/switch partitions -/

/-- For a column that only takes the values 0 and 1, the exact-match
selections for 0 and for 1 are disjoint and together enumerate every
trial index. -/
theorem selectF_binary_partition (trials : List Trial) (f : Field)
    (hb : ∀ t ∈ trials, fieldVal f t = 0 ∨ fieldVal f t = 1) :
    (∀ i ∈ selectF trials [(f, 0)], i ∉ selectF trials [(f, 1)]) ∧
    (selectF trials [(f, 0)] ++ selectF trials [(f, 1)]).Perm
      (List.range trials.length) := by
  constructor
  · intro i h0 h1
    rw [selectF, List.mem_filter] at h0 h1
    rcases h0 with ⟨-, h0⟩
    rcases h1 with ⟨-, h1⟩
    cases hg : trials.get? i with
    | none => rw [hg] at h0; simp at h0
    | some t =>
      rw [hg] at h0 h1
      simp only [matchesF, List.all_cons, List.all_nil, Bool.and_true,
        beq_iff_eq] at h0 h1
      rw [h0] at h1
      exact absurd h1 (by decide)
  · have hq : List.filter (fun i => match trials.get? i with
        | some t => matchesF [(f, 1)] t
        | none => false) (List.range trials.length)
        = List.filter (fun i => !(match trials.get? i with
        | some t => matchesF [(f, 0)] t
        | none => false)) (List.range trials.length) := by
      apply List.filter_congr
      intro i hi
      rw [List.mem_range] at hi
      rw [List.get?_eq_get hi]
      rcases hb _ (trials.get_mem i hi) with h | h <;>
        simp only [List.get_eq_getElem] at h <;>
        simp [matchesF, h]
    rw [selectF, selectF, hq]
    exact List.filter_append_perm _ _

/-- Claim C7: the "all" mode produces exactly 2 series (user and model),
both with category label "N/A"; the "switch" and "congruency" modes each
produce exactly 4 series with the correct category labels; and, assuming
every trial's flag is 0 or 1, the two index selections of each split mode
are disjoint and their concatenation is a permutation of the full trial
index range. -/
theorem rt_series_counts_labels_partition (s : Stats)
    (hsw : ∀ t ∈ s.df, t.is_switch = 0 ∨ t.is_switch = 1)
    (hco : ∀ t ∈ s.df, t.is_congruent = 0 ∨ t.is_congruent = 1) :
    (format_all s = expandSeries (rtSeries_all s) ∧
      (rtSeries_all s).length = 2 ∧
      (rtSeries_all s).map (fun p => p.2)
        = [("user", "N/A"), ("model", "N/A")]) ∧
    (format_by_switch s = expandSeries (rtSeries_switch s) ∧
      (rtSeries_switch s).length = 4 ∧
      (rtSeries_switch s).map (fun p => p.2)
        = [("user", "Stay"), ("user", "Switch"),
           ("model", "Stay"), ("model", "Switch")]) ∧
    (format_by_congruency s = expandSeries (rtSeries_congruency s) ∧
      (rtSeries_congruency s).length = 4 ∧
      (rtSeries_congruency s).map (fun p => p.2)
        = [("user", "Congruent"), ("user", "Incongruent"),
           ("model", "Congruent"), ("model", "Incongruent")]) ∧
    ((∀ i ∈ stayInds s, i ∉ switchInds s) ∧
      (stayInds s ++ switchInds s).Perm (List.range s.df.length)) ∧
    ((∀ i ∈ conInds s, i ∉ inconInds s) ∧
      (conInds s ++ inconInds s).Perm (List.range s.df.length)) := by
  have hswp := selectF_binary_partition s.df .is_switch hsw
  have hcop := selectF_binary_partition s.df .is_congruent hco
  refine ⟨⟨format_all_expand s, rfl, rfl⟩,
    ⟨format_by_switch_expand s, rfl, rfl⟩,
    ⟨format_by_congruency_expand s, rfl, rfl⟩,
    ⟨hswp.1, hswp.2⟩, ⟨?_, ?_⟩⟩
  · intro i hc hi
    exact hcop.1 i hi hc
  · exact (List.perm_append_comm).trans hcop.2

/-- Witness for claim C7 at the concrete two-trial dataset `statsTwo`. -/
theorem rt_series_counts_labels_partition_witness :
    ((∀ t ∈ statsTwo.df, t.is_switch = 0 ∨ t.is_switch = 1) ∧
      (∀ t ∈ statsTwo.df, t.is_congruent = 0 ∨ t.is_congruent = 1)) ∧
    ((format_all statsTwo = expandSeries (rtSeries_all statsTwo) ∧
      (rtSeries_all statsTwo).length = 2 ∧
      (rtSeries_all statsTwo).map (fun p => p.2)
        = [("user", "N/A"), ("model", "N/A")]) ∧
    (format_by_switch statsTwo = expandSeries (rtSeries_switch statsTwo) ∧
      (rtSeries_switch statsTwo).length = 4 ∧
      (rtSeries_switch statsTwo).map (fun p => p.2)
        = [("user", "Stay"), ("user", "Switch"),
           ("model", "Stay"), ("model", "Switch")]) ∧
    (format_by_congruency statsTwo
        = expandSeries (rtSeries_congruency statsTwo) ∧
      (rtSeries_congruency statsTwo).length = 4 ∧
      (rtSeries_congruency statsTwo).map (fun p => p.2)
        = [("user", "Congruent"), ("user", "Incongruent"),
           ("model", "Congruent"), ("model", "Incongruent")]) ∧
    ((∀ i ∈ stayInds statsTwo, i ∉ switchInds statsTwo) ∧
      (stayInds statsTwo ++ switchInds statsTwo).Perm
        (List.range statsTwo.df.length)) ∧
    ((∀ i ∈ conInds statsTwo, i ∉ inconInds statsTwo) ∧
      (conInds statsTwo ++ inconInds statsTwo).Perm
        (List.range statsTwo.df.length))) :=
  ⟨⟨by decide, by decide⟩,
   rt_series_counts_labels_partition statsTwo (by decide) (by decide)⟩

/-! ## Theorems: error handling of the mode string and dispersion token -/

/-- Counterexample to claim C3: at the unsupported mode "invalid" the RT
plotter fails with the interpreter's unresolved-variable error on
`plot_df`, which is not an explicit descriptive rejection — the opposite
of what the claim states. -/
theorem plot_rt_dists_bad_mode_counterexample :
    plot_rt_dists statsTwo "invalid" = .error (.unboundLocal "plot_df") ∧
    (PyError.unboundLocal "plot_df").isDescriptiveRaise = false := by
  exact ⟨by decide, rfl⟩

/-- Claim C3 (amended): for every grouping mode outside 'all', 'switch'
and 'congruency', `plot_rt_dists` fails with `UnboundLocalError` on
`plot_df` when the violin-plot call reads the never-assigned table — an
interpreter fault, not a descriptive unsupported-mode rejection. -/
theorem plot_rt_dists_unbound_on_bad_mode (s : Stats) (pt : String)
    (h1 : pt ≠ "all") (h2 : pt ≠ "switch") (h3 : pt ≠ "congruency") :
    plot_rt_dists s pt = .error (.unboundLocal "plot_df") ∧
    (PyError.unboundLocal "plot_df").isDescriptiveRaise = false := by
  unfold plot_rt_dists
  rw [if_neg h1, if_neg h2, if_neg h3]
  exact ⟨rfl, rfl⟩

/-- Witness for the amended claim C3 at the mode "bogus". -/
theorem plot_rt_dists_unbound_on_bad_mode_witness :
    ("bogus" ≠ "all" ∧ "bogus" ≠ "switch" ∧ "bogus" ≠ "congruency") ∧
    (plot_rt_dists statsTwo "bogus" = .error (.unboundLocal "plot_df") ∧
      (PyError.unboundLocal "plot_df").isDescriptiveRaise = false) :=
  ⟨⟨by decide, by decide, by decide⟩,
   plot_rt_dists_unbound_on_bad_mode statsTwo "bogus"
     (by decide) (by decide) (by decide)⟩

/-- Claim C9: for every dispersion token other than 'sem' or 'sd', both
bar renderers fail at their leading assertion with the message naming the
allowed set, having drawn nothing. -/
theorem bar_renderers_reject_bad_error_type (df : List (String × List ℚ))
    (keys : List String) (rows : List GRow) (et : String) (w w' : Option ℚ)
    (h1 : et ≠ "sem") (h2 : et ≠ "sd") :
    plot_bar df keys et w = .error (.assertionError supportedMsg) ∧
    plot_grouped_bar rows et w' = ([], some (.assertionError supportedMsg)) := by
  have hc : ¬(et = "sem" ∨ et = "sd") := by
    rintro (h | h)
    · exact h1 h
    · exact h2 h
  constructor
  · unfold plot_bar
    rw [if_neg hc]
  · unfold plot_grouped_bar
    rw [if_neg hc]

/-- Witness for claim C9 at the dispersion token "variance". -/
theorem bar_renderers_reject_bad_error_type_witness :
    ("variance" ≠ "sem" ∧ "variance" ≠ "sd") ∧
    (plot_bar dfAB ["A", "B"] "variance" none
        = .error (.assertionError supportedMsg) ∧
      plot_grouped_bar rows3hue "variance" none
        = ([], some (.assertionError supportedMsg))) :=
  ⟨⟨by decide, by decide⟩,
   bar_renderers_reject_bad_error_type dfAB ["A", "B"] rows3hue
     "variance" none none (by decide) (by decide)⟩

/-! ## Theorems: the single-series bar values (claim C1) -/

/-- Counterexample to claim C1: for columns A=[1,2,3], B=[4,4,4] the bars
drawn by `plot_bar` carry error-bar squares 2/9 and 0 (heights 2 and 4),
so the error bar of A is √(2/9) — and √(2/9) is not the claimed
SEM 1/√3 (the source divides the population deviation `np.std`, not the
sample deviation, by √n). -/
theorem plot_bar_sem_claim_counterexample :
    plot_bar dfAB ["A", "B"] "sem" none
      = .ok [⟨0, 2, 2 / 9, 3 / 4, 0⟩, ⟨1, 4, 0, 3 / 4, 1⟩] ∧
    Real.sqrt (2 / 9) ≠ 1 / Real.sqrt 3 := by
  refine ⟨by simp +decide [plot_bar, dfAB, lookupCols, npMeanQ, npVarQ, List.range_succ, List.lookup, Except.map]; norm_num, fun h => ?_⟩
  have ha : Real.sqrt (2 / 9) ^ 2 = 2 / 9 := Real.sq_sqrt (by norm_num)
  have hb : (1 / Real.sqrt 3) ^ 2 = 1 / 3 := by
    rw [div_pow, one_pow, Real.sq_sqrt (by norm_num : (0 : ℝ) ≤ 3)]
  rw [h, hb] at ha
  norm_num at ha

/-- Claim C1 (amended): each bar of `plot_bar` shows the column's mean, and
an error bar of `np.std` (population deviation) over √n: for A=[1,2,3]
mean 2.0 with error √2⁄3, for B=[4,4,4] mean 4.0 with error 0. -/
theorem plot_bar_mean_and_error_values :
    plot_bar dfAB ["A", "B"] "sem" none
      = .ok [⟨0, 2, 2 / 9, 3 / 4, 0⟩, ⟨1, 4, 0, 3 / 4, 1⟩] ∧
    Real.sqrt (2 / 9) = Real.sqrt 2 / 3 ∧ Real.sqrt 0 = 0 := by
  refine ⟨by simp +decide [plot_bar, dfAB, lookupCols, npMeanQ, npVarQ, List.range_succ, List.lookup, Except.map]; norm_num, ?_, Real.sqrt_zero⟩
  rw [Real.sqrt_div (by norm_num : (0 : ℝ) ≤ 2) 9,
    show (9 : ℝ) = 3 ^ 2 by norm_num,
    Real.sqrt_sq (by norm_num : (0 : ℝ) ≤ 3)]

/-! ## Theorems: the grouped bar chart and a third hue value (claim C2) -/

/-- Counterexample to claim C2: on rows whose hue column has the three
distinct values "h1", "h2", "h3" (and the valid token 'sem'), the call
draws the first two hue series and then fails with a bare `IndexError`
from `colors[2]` — not an explicit descriptive error identifying the
offending value, and not before drawing. -/
theorem plot_grouped_bar_three_hues_counterexample :
    (plot_grouped_bar rows3hue "sem" none).2 = some .indexError ∧
    (plot_grouped_bar rows3hue "sem" none).1.map (fun s => s.label)
      = ["h1", "h2"] ∧
    PyError.indexError.isDescriptiveRaise = false := by
  refine ⟨by decide, by decide, rfl⟩

/-- Claim C2 (amended): whenever the hue column has three or more distinct
values (and a valid dispersion token), `plot_grouped_bar` draws the two
first hue series and then stops with an `IndexError` on the third color;
there is no explicit validation of the hue cardinality. -/
theorem plot_grouped_bar_hue_overflow (rows : List GRow) (et : String)
    (w : Option ℚ) (h1 h2 h3 : String) (rest : List String)
    (het : et = "sem" ∨ et = "sd")
    (hu : uniqueFirst (rows.map (fun r => r.hue)) = h1 :: h2 :: h3 :: rest) :
    (plot_grouped_bar rows et w).2 = some .indexError ∧
    (plot_grouped_bar rows et w).1.length = 2 := by
  unfold plot_grouped_bar
  rw [if_pos het, hu]
  simp [groupedLoop, grouped_colors]

/-- Witness for the amended claim C2 at the three-hue rows `rows3hue`. -/
theorem plot_grouped_bar_hue_overflow_witness :
    (("sem" = "sem" ∨ "sem" = "sd") ∧
      uniqueFirst (rows3hue.map (fun r => r.hue)) = ["h1", "h2", "h3"]) ∧
    ((plot_grouped_bar rows3hue "sem" none).2 = some .indexError ∧
      (plot_grouped_bar rows3hue "sem" none).1.length = 2) :=
  ⟨⟨Or.inl rfl, by decide⟩,
   plot_grouped_bar_hue_overflow rows3hue "sem" none "h1" "h2" "h3" []
     (Or.inl rfl) (by decide)⟩

/-! ## Theorems: empty and singleton trial groups in the 3D plotter -/

/-- Averaging over an empty trial group yields the all-NaN trajectory. -/
theorem trajComp_nil (P : PML) (c : ℕ) :
    trajComp P [] c = List.replicate (min P.t_off_ind P.n_times) none := by
  unfold trajComp
  simp [meanOpt]

/-- Counterexample to claim C5: `plot_3d` on a group with zero trial
indices raises nothing at all — it returns successfully having drawn one
curve whose coordinates are all NaN (the mean over no trials). -/
theorem plot_3d_empty_group_counterexample :
    plot_3d pmlEmpty [[]] ["g"] kwNone
      = ([.line3d [none, none] [none, none] [none, none]
          "royalblue" "-" "g" (1 / 2)], none) := by
  simp [plot_3d, pmlEmpty, kwNone, series3dLoop, plot_3d_line, trajComp,
    meanOpt, andThen, default_colors, List.range_succ]

/-- Claim C5 (amended): for every plotter state (without fixed points) a
bare `plot_3d` call on one empty trial-index group succeeds with no
error, drawing a single curve of all-NaN coordinates instead of failing
on the empty selection. -/
theorem plot_3d_empty_group_silent_nan (P : PML) (lbl : String)
    (hfp : P.fixed_points = none) :
    plot_3d P [[]] [lbl] kwNone
      = ([.line3d (List.replicate (min P.t_off_ind P.n_times) none)
          (List.replicate (min P.t_off_ind P.n_times) none)
          (List.replicate (min P.t_off_ind P.n_times) none)
          "royalblue" "-" lbl (1 / 2)], none) := by
  simp [plot_3d, kwNone, series3dLoop, plot_3d_line, trajComp_nil, andThen,
    default_colors, hfp]

/-- Witness for the amended claim C5 at the concrete state `pmlEmpty`. -/
theorem plot_3d_empty_group_silent_nan_witness :
    pmlEmpty.fixed_points = none ∧
    plot_3d pmlEmpty [[]] ["g"] kwNone
      = ([.line3d (List.replicate (min pmlEmpty.t_off_ind pmlEmpty.n_times) none)
          (List.replicate (min pmlEmpty.t_off_ind pmlEmpty.n_times) none)
          (List.replicate (min pmlEmpty.t_off_ind pmlEmpty.n_times) none)
          "royalblue" "-" "g" (1 / 2)], none) :=
  ⟨rfl, plot_3d_empty_group_silent_nan pmlEmpty "g" rfl⟩

/-- Claim C8: on a group containing exactly one trial, the averaged 3D
trajectory drawn by `_plot_3d_line` is that single trial's own trajectory
(restricted to the selected components and the time window), unchanged —
averaging is the identity on singleton groups. -/
theorem plot_3d_line_singleton_identity (P : PML) (i : ℕ)
    (color style lbl : String) (w : ℚ) :
    plot_3d_line P [i] color style lbl w
      = .line3d ((trialTraj P i 0).map some) ((trialTraj P i 1).map some)
          ((trialTraj P i 2).map some) color style lbl w := by
  have htraj : ∀ c, trajComp P [i] c = (trialTraj P i c).map some := by
    intro c
    unfold trajComp trialTraj
    rw [List.map_map]
    refine List.map_congr_left fun t _ => ?_
    simp [meanOpt]
  unfold plot_3d_line
  rw [htraj 0, htraj 1, htraj 2]

/-! ## Theorems: line styles of `plot_main_conditions` (claim C4) -/

/-- Mapping everything to `none` filters everything out. -/
theorem filterMap_none {α β : Type} (l : List α) :
    List.filterMap (fun _ => (none : Option β)) l = [] := by
  induction l <;> simp [*]

/-- `allSolid` distributes over append. -/
theorem allSolid_append (a b : List Draw3D) :
    allSolid (a ++ b) = (allSolid a && allSolid b) := by
  simp [allSolid, List.filterMap_append]

/-- `allSolid` is preserved by the draw-accumulation combinator. -/
theorem allSolid_andThen {a b : List Draw3D × Option PyError}
    (ha : allSolid a.1 = true) (hb : allSolid b.1 = true) :
    allSolid (andThen a b).1 = true := by
  unfold andThen
  cases h : a.2 <;> simp [h, allSolid_append, ha, hb]

/-- A successful `_mark_3d_plot` emits a scatter marker, never a line. -/
theorem mark_3d_plot_ok_no_line {P : PML} {s : List ℕ} {t : Option ℤ}
    {c : String} {sz : ℚ} {m : String} {d : Draw3D}
    (h : mark_3d_plot P s t c sz m = Except.ok d) : d.lineStyle = none := by
  unfold mark_3d_plot at h
  cases t with
  | none => simp at h
  | some tv =>
    rcases hx : pyGet (trajComp P s 0) tv with _ | x <;>
      rcases hy : pyGet (trajComp P s 1) tv with _ | y <;>
      rcases hz : pyGet (trajComp P s 2) tv with _ | z <;>
      simp [hx, hy, hz] at h
    rw [← h]
    rfl

/-- `allSolid` holds of a single-mark draw step. -/
theorem allSolid_draws1_mark (P : PML) (s : List ℕ) (t : Option ℤ)
    (c : String) (sz : ℚ) (m : String) :
    allSolid (draws1 (mark_3d_plot P s t c sz m)).1 = true := by
  cases hr : mark_3d_plot P s t c sz m with
  | error e => simp [draws1, hr, allSolid]
  | ok d =>
    simp [draws1, hr, allSolid, List.filterMap_cons,
      mark_3d_plot_ok_no_line hr]

/-- The task-centroid phase draws only markers. -/
theorem plot_task_centroid_allSolid (P : PML) (series : List (List ℕ))
    (ct : String) (kw : KW3D) :
    allSolid (drawsE (plot_task_centroid P series ct kw)).1 = true := by
  unfold plot_task_centroid
  rcases hmv : kw.mv_series_inds with _ | mvSel <;>
    rcases hpt : kw.pt_series_inds with _ | ptSel <;>
    simp only [hmv, hpt]
  · rfl
  · rfl
  · rfl
  rcases hgm : gatherSeries series mvSel with e | mv_inds <;>
    rcases hgp : gatherSeries series ptSel with e2 | pt_inds <;>
    simp only [hgm, hgp]
  · rfl
  · rfl
  · rfl
  by_cases hct : ct = "onset" <;> simp only [hct, if_pos, if_neg, ite_true,
    ite_false, reduceIte]
  · rcases hm1 : mark_3d_plot P mv_inds (some (P.n_pre : ℤ)) "k" 10 "."
        with e | d1 <;> simp only [hm1]
    · rfl
    rcases hm2 : mark_3d_plot P pt_inds (some (P.n_pre : ℤ)) "k" 10 "."
        with e | d2 <;> simp only [hm2]
    · rfl
    simp [drawsE, allSolid, List.filterMap_cons,
      mark_3d_plot_ok_no_line hm1, mark_3d_plot_ok_no_line hm2]
  · rcases hm1 : mark_3d_plot P mv_inds
        (get_series_rt_samples P mv_inds) "k" 10 "d" with e | d1 <;>
      simp only [hm1]
    · rfl
    rcases hm2 : mark_3d_plot P pt_inds
        (get_series_rt_samples P pt_inds) "k" 10 "d" with e | d2 <;>
      simp only [hm2]
    · rfl
    simp [drawsE, allSolid, List.filterMap_cons,
      mark_3d_plot_ok_no_line hm1, mark_3d_plot_ok_no_line hm2]

/-- Every line emitted by the series loop running with an all-solid style
list is solid. -/
theorem series3dLoop_allSolid (P : PML) (labels colors : List String)
    (n : ℕ) (w : ℚ) (pso psr : Bool) :
    ∀ (series : List (List ℕ)) (i : ℕ),
      allSolid (series3dLoop P labels colors (List.replicate n "-") w pso psr
        series i).1 = true := by
  intro series
  induction series with
  | nil => intro i; rfl
  | cons s rest ih =>
    intro i
    unfold series3dLoop
    rcases hl : labels.get? i with _ | label <;>
      rcases hc : colors.get? i with _ | color <;>
      rcases hs : (List.replicate n "-").get? i with _ | style <;>
      simp only [hl, hc, hs, allSolid]
    all_goals try rfl
    have hsty : style = "-" := by
      have := hs
      rw [List.get?_eq_getElem?, List.getElem?_replicate] at this
      by_cases hin : i < n
      · rw [if_pos hin] at this
        exact (Option.some.injEq _ _ ▸ this.symm)
      · rw [if_neg hin] at this
        exact absurd this (by simp)
    subst hsty
    refine allSolid_andThen (allSolid_andThen ?_ (allSolid_andThen ?_ ?_))
      (ih (i + 1))
    · simp [allSolid, plot_3d_line, List.filterMap_cons, Draw3D.lineStyle]
    · cases pso
      · rfl
      · exact allSolid_draws1_mark P s (some (P.n_pre : ℤ)) "k" 10 "."
    · cases psr
      · rfl
      · exact allSolid_draws1_mark P s (get_series_rt_samples P s) color 6 "o"

/-- The fixed-point overlay draws only scatter markers. -/
theorem plot_fixed_points_allSolid (fps : List FixedPoint) :
    allSolid (plot_fixed_points fps) = true := by
  simp [plot_fixed_points, allSolid, List.filterMap_append,
    List.filterMap_map, Function.comp, Draw3D.lineStyle, filterMap_none]

/-- Claim C4 (behaviour at the divergence): in the default call every
curve `plot_main_conditions` draws is solid — the preset kwargs carry no
`line_styles` entry, so `plot_3d` falls back to its all-solid default —
while the `styles` list the source builds (and then never passes on)
asked for dashed lines on the four pointing-task series. -/
theorem plot_main_conditions_all_solid (P : PML) :
    allSolid (plot_main_conditions P id).1 = true ∧
    mainStyles = ["-", "-", "-", "-", "--", "--", "--", "--"] := by
  refine ⟨?_, rfl⟩
  unfold plot_main_conditions plot_3d
  simp only [id_eq, mainPlotKW, Option.getD]
  refine allSolid_andThen (plot_task_centroid_allSolid _ _ _ _)
    (allSolid_andThen (by rfl)
      (allSolid_andThen (series3dLoop_allSolid _ _ _ _ _ _ _ _ _) ?_))
  cases P.fixed_points with
  | none => rfl
  | some fps => exact plot_fixed_points_allSolid fps

/-! ## Theorems: `PlotRTs.__init__` aliases the stats object's dict -/

/-- Claim C10: constructing a `PlotRTs` from a stats object aliases the
stats object's attribute dictionary rather than copying it: the two
objects share one `__dict__` afterwards, the stats object has gained the
`palette` attribute, and an attribute written through either object is
read back through the other. -/
theorem plotRTs_init_aliases (h : Heap) (st : ℕ) (p v : PyVal) (k : String)
    (hst : st < h.nextObj) :
    ((PlotRTs_init h st p).1.objDict (PlotRTs_init h st p).2
        = (PlotRTs_init h st p).1.objDict st) ∧
    (PlotRTs_init h st p).1.getattr st "palette" = some p ∧
    ((PlotRTs_init h st p).1.setattr (PlotRTs_init h st p).2 k v).getattr
        st k = some v ∧
    ((PlotRTs_init h st p).1.setattr st k v).getattr
        (PlotRTs_init h st p).2 k = some v := by
  have hne : st ≠ h.nextObj := Nat.ne_of_lt hst
  refine ⟨?_, ?_, ?_, ?_⟩ <;>
    simp [PlotRTs_init, Heap.setattr, Heap.getattr, hne, List.lookup]

/-- Witness for claim C10 at a one-object heap. -/
theorem plotRTs_init_aliases_witness :
    (0 < (⟨fun _ => 0, fun _ => [], 1, 1⟩ : Heap).nextObj) ∧
    (((PlotRTs_init ⟨fun _ => 0, fun _ => [], 1, 1⟩ 0 (.str "viridis")).1.objDict
        (PlotRTs_init ⟨fun _ => 0, fun _ => [], 1, 1⟩ 0 (.str "viridis")).2
      = (PlotRTs_init ⟨fun _ => 0, fun _ => [], 1, 1⟩ 0 (.str "viridis")).1.objDict 0) ∧
    (PlotRTs_init ⟨fun _ => 0, fun _ => [], 1, 1⟩ 0 (.str "viridis")).1.getattr
        0 "palette" = some (.str "viridis") ∧
    (((PlotRTs_init ⟨fun _ => 0, fun _ => [], 1, 1⟩ 0 (.str "viridis")).1.setattr
        (PlotRTs_init ⟨fun _ => 0, fun _ => [], 1, 1⟩ 0 (.str "viridis")).2
        "x" (.num 7)).getattr 0 "x" = some (.num 7)) ∧
    (((PlotRTs_init ⟨fun _ => 0, fun _ => [], 1, 1⟩ 0 (.str "viridis")).1.setattr
        0 "x" (.num 7)).getattr
        (PlotRTs_init ⟨fun _ => 0, fun _ => [], 1, 1⟩ 0 (.str "viridis")).2
        "x" = some (.num 7))) :=
  ⟨Nat.zero_lt_one,
   plotRTs_init_aliases ⟨fun _ => 0, fun _ => [], 1, 1⟩ 0 (.str "viridis")
     (.num 7) "x" Nat.zero_lt_one⟩

end TaskDyva
